import Mathlib

/-!
Verification of the condition-scoring core of `summary.py` (class
`RailwayAnalyzer`): `calculate_age_months`, `get_last_inspection_days`,
`analyze_condition`, `generate_recommendations` and the `analyze_product`
workflow.

Dates: the source parses `YYYY-MM-DD` strings with `datetime.strptime` and
only ever subtracts them, reading `.days` of the resulting `timedelta`.  A
calendar date is therefore represented here by its day number (an `Int`:
days since an arbitrary fixed epoch), and the clock `datetime.now()` by the
day number `now` passed explicitly; `(datetime.now() - supply).days` is
`now - supply` (the time-of-day component of the clock is in `[0, 1)` of a
day and is dropped by `.days`, which floors).

`get_last_inspection_days` returns either the int `(now - latest).days` or
the float infinity sentinel; the union of the two is the type `DaysSince`,
with the Python comparison against an int threshold (`DaysSince.gt`, float
infinity is greater than every int) and the Python string rendering used by
the f-string interpolation (`DaysSince.toPyString`, an int prints its
decimal digits, float infinity prints `inf`).

Python `str.lower` and two-argument `min` are embedded as the structural
functions `py_lower` and `py_min`.
-/

/-- Result of `get_last_inspection_days` (summary.py lines 28-34): either the
integer day count since the latest inspection, or the float infinity used as
a sentinel when the inspection list is empty. -/
inductive DaysSince where
  | fin (days : Int)
  | infinite
  deriving DecidableEq, Repr

/-- Python comparison `x > k` of a days-since value against an int
threshold: float infinity compares greater than every int. -/
def DaysSince.gt : DaysSince → Int → Bool
  | .infinite, _ => true
  | .fin d, k => decide (d > k)

/-- Python string interpolation of a days-since value: an int prints its
decimal digits, float infinity prints `inf`. -/
def DaysSince.toPyString : DaysSince → String
  | .infinite => "inf"
  | .fin d => toString d

/-- The product record fetched from the backend, with the fields summary.py
reads; date-valued fields hold day numbers (see the module comment). -/
structure ProductRecord where
  productId : String
  vendor : String
  batchNo : String
  dateOfSupply : Int
  warrantyPeriod : String
  status : String
  inspectionDates : List Int
  deriving DecidableEq, Repr

/-- Python `str.lower`, character by character (summary.py only compares the
result against the ASCII words `faulty`, `damaged`, `worn`). -/
def py_lower (s : String) : String :=
  String.mk (s.data.map Char.toLower)

/-- Python `min(a, b)` on ints. -/
def py_min (a b : Int) : Int :=
  if a ≤ b then a else b

/-- `calculate_age_months` (summary.py lines 23-26):
`(datetime.now() - supply).days // 30`, with `//` the floor division. -/
def calculate_age_months (now : Int) (supply_date : Int) : Int :=
  Int.fdiv (now - supply_date) 30

/-- `get_last_inspection_days` (summary.py lines 28-34): float infinity for
an empty list, else days since the maximum (most recent) date. -/
def get_last_inspection_days (now : Int) (inspection_dates : List Int) : DaysSince :=
  match inspection_dates with
  | [] => DaysSince.infinite
  | d :: ds => DaysSince.fin (now - ds.foldl max d)

/-- Age-based risk, the if/elif ladder of summary.py lines 45-54: the score
contribution added to `risk_score` and the factor appended to
`risk_factors` by that ladder. -/
def age_bucket (age_months : Int) : Int × Option String :=
  if age_months > 48 then
    (40, some "Component exceeding recommended service life")
  else if age_months > 36 then
    (25, some "Component approaching end of service life")
  else if age_months > 24 then
    (10, some "Component in mid-service period")
  else
    (0, none)

/-- Inspection-based risk, the if/elif ladder of summary.py lines 56-62. -/
def inspection_bucket (days_since_inspection : DaysSince) : Int × Option String :=
  if days_since_inspection.gt 180 then
    (35, some "Overdue for inspection (>6 months)")
  else if days_since_inspection.gt 90 then
    (20, some "Due for inspection soon")
  else
    (0, none)

/-- Status-based risk, summary.py lines 64-67. -/
def status_bucket (status : String) : Int × Option String :=
  if ["faulty", "damaged", "worn"].contains (py_lower status) then
    (50, some "Component status indicates issues")
  else
    (0, none)

/-- Condition label chosen by the ladder of summary.py lines 69-78, applied
to the raw (pre-clamp) risk score. -/
def classify_condition (risk_score : Int) : String :=
  if risk_score ≥ 70 then "CRITICAL"
  else if risk_score ≥ 40 then "WARNING"
  else "GOOD"

/-- Color chosen in the same ladder, summary.py lines 69-78. -/
def condition_color (risk_score : Int) : String :=
  if risk_score ≥ 70 then "üî¥"
  else if risk_score ≥ 40 then "üü°"
  else "üü¢"

/-- The analysis dict returned by `analyze_condition`, summary.py
lines 80-87. -/
structure ConditionAnalysis where
  condition : String
  risk_score : Int
  color : String
  risk_factors : List String
  age_months : Int
  days_since_inspection : DaysSince
  deriving DecidableEq, Repr

/-- `analyze_condition` (summary.py lines 36-87).  The imperative
`risk_score += delta` and `risk_factors.append(f)` statements of
lines 42-67 run the three bucket ladders in the fixed order age,
inspection, status, so the final accumulators are the sum of the three
contributions starting from 0 and the list of the triggered factors in that
order.  The condition/color ladder of lines 69-78 reads the raw sum, and
only the `risk_score` returned on line 82 is clamped with `min(., 100)`. -/
def analyze_condition (now : Int) (product_data : ProductRecord) : ConditionAnalysis :=
  let age_months := calculate_age_months now product_data.dateOfSupply
  let days_since_inspection := get_last_inspection_days now product_data.inspectionDates
  let risk_score : Int :=
    0 + (age_bucket age_months).1 + (inspection_bucket days_since_inspection).1
      + (status_bucket product_data.status).1
  let risk_factors : List String :=
    [] ++ (age_bucket age_months).2.toList
      ++ (inspection_bucket days_since_inspection).2.toList
      ++ (status_bucket product_data.status).2.toList
  { condition := classify_condition risk_score
    risk_score := py_min risk_score 100
    color := condition_color risk_score
    risk_factors := risk_factors
    age_months := age_months
    days_since_inspection := days_since_inspection }

/-- The raw accumulated risk score of summary.py lines 42-67, before the
clamp of line 82. -/
def raw_risk_score (now : Int) (product_data : ProductRecord) : Int :=
  0 + (age_bucket (calculate_age_months now product_data.dateOfSupply)).1
    + (inspection_bucket (get_last_inspection_days now product_data.inspectionDates)).1
    + (status_bucket product_data.status).1

/-- `generate_recommendations` (summary.py lines 89-115): the appends run in
source order, so the result is the condition block, then the
inspection-scheduling recommendation when `days_since_inspection > 90`
(interpolating the day count), then the proactive-replacement
recommendation when `age_months > 36`.  The `product_data` parameter is
taken and never read, as in the source. -/
def generate_recommendations (analysis : ConditionAnalysis)
    (product_data : ProductRecord) : List String :=
  (if analysis.condition == "CRITICAL" then
    ["üö® IMMEDIATE ACTION: Replace component immediately",
     "üîß Schedule emergency maintenance",
     "üìã Conduct thorough safety inspection"]
  else if analysis.condition == "WARNING" then
    ["‚ö†Ô∏è Schedule replacement within 30 days",
     "üîç Increase inspection frequency to weekly",
     "üìä Monitor closely for deterioration"]
  else
    ["‚úÖ Continue normal operation",
     "üìÖ Maintain regular inspection schedule"])
  ++ (if analysis.days_since_inspection.gt 90 then
      ["üîé Schedule inspection (last: " ++ analysis.days_since_inspection.toPyString ++ " days ago)"]
    else [])
  ++ (if analysis.age_months > 36 then
      ["üìà Consider proactive replacement planning"]
    else [])

/-- The report assembled by `analyze_product` (summary.py lines 129-146):
the `product_info` fields, the formatted `ai_analysis` strings and the
recommendation list. -/
structure Report where
  product_id : String
  vendor : String
  batch_no : String
  supply_date : Int
  warranty : String
  status : String
  condition_line : String
  risk_score_line : String
  age_line : String
  last_inspection_line : String
  risk_factors : List String
  recommendations : List String
  deriving DecidableEq, Repr

/-- Result of the workflow: the error dict of summary.py line 122, or the
report of lines 129-146. -/
inductive AnalysisResult where
  | error (msg : String)
  | success (report : Report)
  deriving DecidableEq, Repr

/-- `analyze_product` (summary.py lines 117-146).  The fetch outcome is the
`Option` that `fetch_product_data` produces: `some` record on success,
`none` when the request fails and the except branch returns `None`. -/
def analyze_product (now : Int) (fetch_result : Option ProductRecord) : AnalysisResult :=
  match fetch_result with
  | none => AnalysisResult.error "Product not found or API error"
  | some product_data =>
    let analysis := analyze_condition now product_data
    let recommendations := generate_recommendations analysis product_data
    AnalysisResult.success
      { product_id := product_data.productId
        vendor := product_data.vendor
        batch_no := product_data.batchNo
        supply_date := product_data.dateOfSupply
        warranty := product_data.warrantyPeriod
        status := product_data.status
        condition_line := analysis.color ++ " " ++ analysis.condition
        risk_score_line := toString analysis.risk_score ++ "/100"
        age_line := toString analysis.age_months ++ " months"
        last_inspection_line := analysis.days_since_inspection.toPyString ++ " days ago"
        risk_factors := analysis.risk_factors
        recommendations := recommendations }

/-- A JSON field value as the Python dict holds it: a string, or some
non-string value. -/
inductive PyVal where
  | str (s : String)
  | nonStr
  deriving DecidableEq, Repr

/-- The Python exceptions relevant to reading the `status` field, next to
the `ValidationError` of the spec error taxonomy (which the source never
raises). -/
inductive PyError where
  | keyError
  | attributeError
  | validationError
  deriving DecidableEq, Repr

/-- `analyze_condition` on a record whose `status` field may be absent or
non-string.  Line 65 of summary.py subscripts `product_data` with the key
`status` and calls `.lower()` on the result, so a missing key raises
`KeyError` and a non-string value raises `AttributeError`; in either case
the call fails and no analysis dict is returned.  With a string status the
analysis of lines 36-87 is produced (the fields the scorer never reads are
irrelevant and filled with empty strings here). -/
def analyze_condition_checked (now : Int) (dateOfSupply : Int)
    (inspectionDates : List Int) (status : Option PyVal) :
    Except PyError ConditionAnalysis :=
  match status with
  | none => Except.error PyError.keyError
  | some PyVal.nonStr => Except.error PyError.attributeError
  | some (PyVal.str s) =>
    Except.ok (analyze_condition now
      { productId := "", vendor := "", batchNo := "", dateOfSupply := dateOfSupply,
        warrantyPeriod := "", status := s, inspectionDates := inspectionDates })

/-- A concrete record: supplied on day 0, never inspected, healthy status.
Analyzed at `now = 1461` its supply date lies exactly four years (including
one leap day) in the past. -/
def fourYearRecord : ProductRecord :=
  { productId := "TF-1001", vendor := "Vendor A", batchNo := "B-7",
    dateOfSupply := 0, warrantyPeriod := "5 years", status := "good",
    inspectionDates := [] }

/-- A concrete record that maximizes every bucket when analyzed at
`now = 1500`: 50 months old, never inspected, faulty status. -/
def overageFaultyRecord : ProductRecord :=
  { productId := "TF-1002", vendor := "Vendor B", batchNo := "B-9",
    dateOfSupply := 0, warrantyPeriod := "5 years", status := "faulty",
    inspectionDates := [] }

/-- A concrete record for the input-dependence check. -/
def recordA : ProductRecord :=
  { productId := "TF-2001", vendor := "Vendor C", batchNo := "B-11",
    dateOfSupply := 100, warrantyPeriod := "3 years", status := "ok",
    inspectionDates := [150] }

/-- Same scoring-relevant fields as `recordA` (`dateOfSupply`,
`inspectionDates`, `status`), different descriptive fields. -/
def recordB : ProductRecord :=
  { productId := "TF-2002", vendor := "Vendor D", batchNo := "B-12",
    dateOfSupply := 100, warrantyPeriod := "9 years", status := "ok",
    inspectionDates := [150] }

/-- A concrete analysis with condition CRITICAL, age 40 months, last
inspection 100 days ago (reachable, e.g. from a 40-month-old faulty record
inspected 100 days before the analysis). -/
def criticalAnalysisA : ConditionAnalysis :=
  { condition := "CRITICAL", risk_score := 95, color := "üî¥",
    risk_factors := ["Component approaching end of service life",
                     "Due for inspection soon",
                     "Component status indicates issues"],
    age_months := 40, days_since_inspection := DaysSince.fin 100 }

/-! ## Helper lemmas

The scorer projections in terms of the bucket functions; all are
definitional given the translation above. -/

theorem analyze_risk_score_def (now : Int) (p : ProductRecord) :
    (analyze_condition now p).risk_score = py_min (raw_risk_score now p) 100 := rfl

theorem analyze_condition_label_def (now : Int) (p : ProductRecord) :
    (analyze_condition now p).condition = classify_condition (raw_risk_score now p) := rfl

theorem analyze_factors_def (now : Int) (p : ProductRecord) :
    (analyze_condition now p).risk_factors
      = (age_bucket (calculate_age_months now p.dateOfSupply)).2.toList
        ++ (inspection_bucket (get_last_inspection_days now p.inspectionDates)).2.toList
        ++ (status_bucket p.status).2.toList := rfl

theorem age_bucket_fst_cases (a : Int) :
    (age_bucket a).1 = 40 ∨ (age_bucket a).1 = 25
      ∨ (age_bucket a).1 = 10 ∨ (age_bucket a).1 = 0 := by
  unfold age_bucket
  split_ifs <;> simp

theorem inspection_bucket_fst_cases (d : DaysSince) :
    (inspection_bucket d).1 = 35 ∨ (inspection_bucket d).1 = 20
      ∨ (inspection_bucket d).1 = 0 := by
  unfold inspection_bucket
  split_ifs <;> simp

theorem status_bucket_fst_cases (s : String) :
    (status_bucket s).1 = 50 ∨ (status_bucket s).1 = 0 := by
  unfold status_bucket
  split_ifs <;> simp

theorem raw_risk_score_bounds (now : Int) (p : ProductRecord) :
    0 ≤ raw_risk_score now p ∧ raw_risk_score now p ≤ 125 := by
  unfold raw_risk_score
  rcases age_bucket_fst_cases (calculate_age_months now p.dateOfSupply) with h1 | h1 | h1 | h1 <;>
    rcases inspection_bucket_fst_cases (get_last_inspection_days now p.inspectionDates)
      with h2 | h2 | h2 <;>
      rcases status_bucket_fst_cases p.status with h3 | h3 <;>
        rw [h1, h2, h3] <;> omega

theorem classify_spec (r : Int) :
    (classify_condition r = "CRITICAL" ↔ 70 ≤ r)
  ∧ (classify_condition r = "WARNING" ↔ 40 ≤ r ∧ r < 70)
  ∧ (classify_condition r = "GOOD" ↔ r < 40) := by
  unfold classify_condition
  split_ifs with h1 h2
  · exact ⟨⟨fun _ => by omega, fun _ => rfl⟩,
      ⟨fun h => absurd h (by decide), fun h => absurd h.2 (by omega)⟩,
      ⟨fun h => absurd h (by decide), fun h => absurd h (by omega)⟩⟩
  · exact ⟨⟨fun h => absurd h (by decide), fun h => absurd h1 (by omega)⟩,
      ⟨fun _ => by omega, fun _ => rfl⟩,
      ⟨fun h => absurd h (by decide), fun h => absurd h (by omega)⟩⟩
  · exact ⟨⟨fun h => absurd h (by decide), fun h => absurd h1 (by omega)⟩,
      ⟨fun h => absurd h (by decide), fun h => absurd h2 (by omega)⟩,
      ⟨fun _ => by omega, fun _ => rfl⟩⟩

theorem classify_clamp_agree (r : Int) :
    classify_condition (py_min r 100) = classify_condition r := by
  unfold py_min
  split_ifs with h
  · rfl
  · have h1 : classify_condition (100 : Int) = "CRITICAL" := by decide
    have h2 : classify_condition r = "CRITICAL" := (classify_spec r).1.mpr (by omega)
    rw [h1, h2]

/-! ## Claims -/

/-- C1 (counterexample): at `now = 1461` the record supplied on day 0 has
its supply date exactly four calendar years, 1461 days (one leap day
included), in the past; with an empty inspection list and status `good` the
age is 1461 / 30 = 48 months, the +40 bucket requires strictly more than
48, so the scorer gives +25 for age and +35 for inspection: riskScore 60
and WARNING, not the claimed 75 and CRITICAL. -/
theorem four_year_age_cex :
    (analyze_condition 1461 fourYearRecord).risk_score = 60
  ∧ (analyze_condition 1461 fourYearRecord).risk_score ≠ 75
  ∧ (analyze_condition 1461 fourYearRecord).condition = "WARNING"
  ∧ (analyze_condition 1461 fourYearRecord).condition ≠ "CRITICAL" := by
  decide

/-- C1 (amended): for a record whose `dateOfSupply` is exactly 4 years
before the current timestamp (1460 or 1461 days, depending on leap days),
an empty `inspectionDates` list and status `good`, the age is 48 months,
the age bucket contributes +25 (48 is not strictly greater than 48), the
inspection bucket +35 and the status bucket 0, yielding riskScore 60,
condition WARNING, and exactly 2 risk factors in that order (age factor
first, inspection factor second). -/
theorem four_year_age_amended (now : Int) (p : ProductRecord)
    (hd : now - p.dateOfSupply = 1460 ∨ now - p.dateOfSupply = 1461)
    (hi : p.inspectionDates = [])
    (hs : p.status = "good") :
    (analyze_condition now p).age_months = 48
  ∧ age_bucket 48 = (25, some "Component approaching end of service life")
  ∧ inspection_bucket DaysSince.infinite = (35, some "Overdue for inspection (>6 months)")
  ∧ status_bucket "good" = (0, none)
  ∧ (analyze_condition now p).risk_score = 60
  ∧ (analyze_condition now p).condition = "WARNING"
  ∧ (analyze_condition now p).risk_factors
      = ["Component approaching end of service life",
         "Overdue for inspection (>6 months)"] := by
  have hage : calculate_age_months now p.dateOfSupply = 48 := by
    unfold calculate_age_months
    rcases hd with h | h <;> rw [h] <;> decide
  have h1 : age_bucket (calculate_age_months now p.dateOfSupply)
      = (25, some "Component approaching end of service life") := by
    rw [hage]; decide
  have h2 : get_last_inspection_days now p.inspectionDates = DaysSince.infinite := by
    rw [hi]; rfl
  have h3 : inspection_bucket (get_last_inspection_days now p.inspectionDates)
      = (35, some "Overdue for inspection (>6 months)") := by
    rw [h2]; decide
  have h4 : status_bucket p.status = (0, none) := by
    rw [hs]; decide
  refine ⟨hage, by decide, by decide, by decide, ?_, ?_, ?_⟩
  · show py_min (raw_risk_score now p) 100 = 60
    unfold raw_risk_score
    rw [h1, h3, h4]
    decide
  · show classify_condition (raw_risk_score now p) = "WARNING"
    unfold raw_risk_score
    rw [h1, h3, h4]
    decide
  · show (age_bucket (calculate_age_months now p.dateOfSupply)).2.toList
        ++ (inspection_bucket (get_last_inspection_days now p.inspectionDates)).2.toList
        ++ (status_bucket p.status).2.toList
      = ["Component approaching end of service life",
         "Overdue for inspection (>6 months)"]
    rw [h1, h3, h4]
    decide

/-- C1 (amended) instantiated at the concrete input `now = 1461` and the
record supplied on day 0, never inspected, status `good`. -/
theorem four_year_age_amended_witness :
    (analyze_condition 1461 fourYearRecord).age_months = 48
  ∧ age_bucket 48 = (25, some "Component approaching end of service life")
  ∧ inspection_bucket DaysSince.infinite = (35, some "Overdue for inspection (>6 months)")
  ∧ status_bucket "good" = (0, none)
  ∧ (analyze_condition 1461 fourYearRecord).risk_score = 60
  ∧ (analyze_condition 1461 fourYearRecord).condition = "WARNING"
  ∧ (analyze_condition 1461 fourYearRecord).risk_factors
      = ["Component approaching end of service life",
         "Overdue for inspection (>6 months)"] :=
  four_year_age_amended 1461 fourYearRecord (Or.inr (by decide)) rfl rfl

/-- C2: for every record, the condition returned by the scorer is CRITICAL
iff the reported riskScore is at least 70, WARNING iff it is at least 40
and below 70, and GOOD iff it is below 40; the three labels partition the
score range totally and without overlap, boundaries included. -/
theorem condition_partition (now : Int) (p : ProductRecord) :
    ((analyze_condition now p).condition = "CRITICAL"
        ↔ 70 ≤ (analyze_condition now p).risk_score)
  ∧ ((analyze_condition now p).condition = "WARNING"
        ↔ 40 ≤ (analyze_condition now p).risk_score
          ∧ (analyze_condition now p).risk_score < 70)
  ∧ ((analyze_condition now p).condition = "GOOD"
        ↔ (analyze_condition now p).risk_score < 40) := by
  have hs : (analyze_condition now p).risk_score = py_min (raw_risk_score now p) 100 := rfl
  have hc : (analyze_condition now p).condition
      = classify_condition (raw_risk_score now p) := rfl
  rw [hs, hc]
  rcases le_or_lt (raw_risk_score now p) 100 with h | h
  · have hm : py_min (raw_risk_score now p) 100 = raw_risk_score now p := by
      unfold py_min; rw [if_pos h]
    rw [hm]
    exact classify_spec (raw_risk_score now p)
  · have hm : py_min (raw_risk_score now p) 100 = 100 := by
      unfold py_min; rw [if_neg (by omega)]
    have hcrit : classify_condition (raw_risk_score now p) = "CRITICAL" :=
      (classify_spec (raw_risk_score now p)).1.mpr (by omega)
    rw [hm, hcrit]
    exact ⟨⟨fun _ => by omega, fun _ => rfl⟩,
      ⟨fun hh => absurd hh (by decide), fun hh => absurd hh.2 (by decide)⟩,
      ⟨fun hh => absurd hh (by decide), fun hh => absurd hh (by decide)⟩⟩

/-- C3: for every record the reported riskScore lies in [0, 100]: it is the
clamp `min(raw, 100)` of the raw bucket sum (which itself never exceeds
40 + 35 + 50 = 125), and only the reported value is clamped — the condition
label is computed from the unclamped raw sum. -/
theorem risk_score_range (now : Int) (p : ProductRecord) :
    0 ≤ (analyze_condition now p).risk_score
  ∧ (analyze_condition now p).risk_score ≤ 100
  ∧ (analyze_condition now p).risk_score = py_min (raw_risk_score now p) 100
  ∧ raw_risk_score now p ≤ 125
  ∧ (analyze_condition now p).condition = classify_condition (raw_risk_score now p) := by
  have hb := raw_risk_score_bounds now p
  refine ⟨?_, ?_, rfl, hb.2, rfl⟩
  · show 0 ≤ py_min (raw_risk_score now p) 100
    unfold py_min
    split_ifs <;> omega
  · show py_min (raw_risk_score now p) 100 ≤ 100
    unfold py_min
    split_ifs <;> omega

/-- C4 (counterexample): with the status field absent the scorer fails with
KeyError, and with a non-string status with AttributeError; in neither case
is the failure the ValidationError of the spec taxonomy. -/
theorem status_error_kind_cex :
    analyze_condition_checked 0 0 [] none = Except.error PyError.keyError
  ∧ analyze_condition_checked 0 0 [] (some PyVal.nonStr)
      = Except.error PyError.attributeError
  ∧ analyze_condition_checked 0 0 [] none ≠ Except.error PyError.validationError
  ∧ analyze_condition_checked 0 0 [] (some PyVal.nonStr)
      ≠ Except.error PyError.validationError := by
  refine ⟨rfl, rfl, fun h => ?_, fun h => ?_⟩ <;>
    · injection h with h2
      exact PyError.noConfusion h2

/-- C4 (amended): when the fetched record has a missing or malformed
(non-string) status field, the condition scorer fails — with an uncaught
KeyError or AttributeError respectively, not with a distinguished
ValidationError — and never silently skips the status bucket to produce an
analysis. -/
theorem status_missing_or_nonstring_fails (now dateOfSupply : Int)
    (insp : List Int) (status : Option PyVal)
    (h : status = none ∨ status = some PyVal.nonStr) :
    (∃ e : PyError,
        analyze_condition_checked now dateOfSupply insp status = Except.error e
          ∧ e ≠ PyError.validationError)
  ∧ ∀ a : ConditionAnalysis,
      analyze_condition_checked now dateOfSupply insp status ≠ Except.ok a := by
  rcases h with h | h <;> subst h
  · exact ⟨⟨PyError.keyError, rfl, fun hh => PyError.noConfusion hh⟩,
      fun a hh => Except.noConfusion hh⟩
  · exact ⟨⟨PyError.attributeError, rfl, fun hh => PyError.noConfusion hh⟩,
      fun a hh => Except.noConfusion hh⟩

/-- C4 (amended) instantiated at a concrete record with the status field
absent. -/
theorem status_missing_or_nonstring_fails_witness :
    (∃ e : PyError,
        analyze_condition_checked 0 0 [] none = Except.error e
          ∧ e ≠ PyError.validationError)
  ∧ ∀ a : ConditionAnalysis,
      analyze_condition_checked 0 0 [] none ≠ Except.ok a :=
  status_missing_or_nonstring_fails 0 0 [] none (Or.inl rfl)

/-- C5: for every record with an empty `inspectionDates` list the
days-since-inspection value is the infinity sentinel, which compares
greater than every finite threshold, so the analysis takes the >180
inspection bucket (+35, the overdue factor appears among the risk factors)
and the recommendation generator emits the >90 inspection-scheduling
recommendation. -/
theorem empty_inspection_sentinel (now : Int) (p : ProductRecord)
    (hi : p.inspectionDates = []) :
    get_last_inspection_days now p.inspectionDates = DaysSince.infinite
  ∧ (∀ k : Int, DaysSince.infinite.gt k = true)
  ∧ inspection_bucket (get_last_inspection_days now p.inspectionDates)
      = (35, some "Overdue for inspection (>6 months)")
  ∧ "Overdue for inspection (>6 months)" ∈ (analyze_condition now p).risk_factors
  ∧ ("üîé Schedule inspection (last: " ++ DaysSince.infinite.toPyString ++ " days ago)")
      ∈ generate_recommendations (analyze_condition now p) p := by
  have h2 : get_last_inspection_days now p.inspectionDates = DaysSince.infinite := by
    rw [hi]; rfl
  have h3 : inspection_bucket (get_last_inspection_days now p.inspectionDates)
      = (35, some "Overdue for inspection (>6 months)") := by
    rw [h2]; decide
  refine ⟨h2, fun k => rfl, h3, ?_, ?_⟩
  · have hf : (analyze_condition now p).risk_factors
        = (age_bucket (calculate_age_months now p.dateOfSupply)).2.toList
          ++ (inspection_bucket (get_last_inspection_days now p.inspectionDates)).2.toList
          ++ (status_bucket p.status).2.toList := rfl
    rw [hf, h3]
    simp
  · have hdays : (analyze_condition now p).days_since_inspection = DaysSince.infinite := h2
    unfold generate_recommendations
    rw [hdays]
    refine List.mem_append_left _ (List.mem_append_right _ ?_)
    show ("üîé Schedule inspection (last: " ++ DaysSince.infinite.toPyString ++ " days ago)")
      ∈ ["üîé Schedule inspection (last: " ++ DaysSince.infinite.toPyString ++ " days ago)"]
    exact List.mem_singleton_self _

/-- C5 instantiated at the concrete never-inspected record and `now = 0`. -/
theorem empty_inspection_sentinel_witness :
    get_last_inspection_days 0 fourYearRecord.inspectionDates = DaysSince.infinite
  ∧ (∀ k : Int, DaysSince.infinite.gt k = true)
  ∧ inspection_bucket (get_last_inspection_days 0 fourYearRecord.inspectionDates)
      = (35, some "Overdue for inspection (>6 months)")
  ∧ "Overdue for inspection (>6 months)" ∈ (analyze_condition 0 fourYearRecord).risk_factors
  ∧ ("üîé Schedule inspection (last: " ++ DaysSince.infinite.toPyString ++ " days ago)")
      ∈ generate_recommendations (analyze_condition 0 fourYearRecord) fourYearRecord :=
  empty_inspection_sentinel 0 fourYearRecord rfl

/-- C6: for every record the risk-factor list is exactly the age factor (at
most one, the most severe satisfied age bucket), then the inspection
factor, then the status factor — the fixed evaluation order, never
reordered; at ageMonths 25, 37 and 49 the age bucket yields exactly one
factor, matching the bucket. -/
theorem risk_factor_order_and_age_bucket (now : Int) (p : ProductRecord) :
    (analyze_condition now p).risk_factors
      = (age_bucket (calculate_age_months now p.dateOfSupply)).2.toList
        ++ (inspection_bucket (get_last_inspection_days now p.inspectionDates)).2.toList
        ++ (status_bucket p.status).2.toList
  ∧ (∀ a : Int, ((age_bucket a).2.toList).length ≤ 1)
  ∧ age_bucket 25 = (10, some "Component in mid-service period")
  ∧ age_bucket 37 = (25, some "Component approaching end of service life")
  ∧ age_bucket 49 = (40, some "Component exceeding recommended service life") := by
  refine ⟨rfl, fun a => ?_, by decide, by decide, by decide⟩
  unfold age_bucket
  split_ifs <;> simp

/-- C7: for every analysis with condition CRITICAL, age 40 months and last
inspection 100 days ago, the recommendation generator returns exactly the 3
fixed critical-action strings, then the inspection-scheduling string
interpolating the day count, then the proactive-replacement-planning
string: 5 recommendations in that order. -/
theorem critical_recommendation_set (analysis : ConditionAnalysis) (p : ProductRecord)
    (hc : analysis.condition = "CRITICAL")
    (ha : analysis.age_months = 40)
    (hdays : analysis.days_since_inspection = DaysSince.fin 100) :
    generate_recommendations analysis p =
      ["üö® IMMEDIATE ACTION: Replace component immediately",
       "üîß Schedule emergency maintenance",
       "üìã Conduct thorough safety inspection",
       "üîé Schedule inspection (last: " ++ (DaysSince.fin 100).toPyString ++ " days ago)",
       "üìà Consider proactive replacement planning"] := by
  unfold generate_recommendations
  rw [hc, ha, hdays]
  decide

/-- C7 instantiated at a concrete CRITICAL analysis with age 40 and last
inspection 100 days ago. -/
theorem critical_recommendation_set_witness :
    generate_recommendations criticalAnalysisA fourYearRecord =
      ["üö® IMMEDIATE ACTION: Replace component immediately",
       "üîß Schedule emergency maintenance",
       "üìã Conduct thorough safety inspection",
       "üîé Schedule inspection (last: " ++ (DaysSince.fin 100).toPyString ++ " days ago)",
       "üìà Consider proactive replacement planning"] :=
  critical_recommendation_set criticalAnalysisA fourYearRecord rfl rfl rfl

/-- C8: when the data-source fetch fails (record absent), the workflow
returns exactly the single error result and never a report carrying any
analysis or recommendation output. -/
theorem fetch_failure_result (now : Int) :
    analyze_product now none = AnalysisResult.error "Product not found or API error"
  ∧ ∀ r : Report, analyze_product now none ≠ AnalysisResult.success r := by
  refine ⟨rfl, fun r h => ?_⟩
  exact AnalysisResult.noConfusion h

/-- C9: the condition scorer is a pure function of the current timestamp
and the record: two runs on the same record give the same analysis, and the
output depends on nothing beyond the fields of the record the scorer reads
(`dateOfSupply`, `inspectionDates`, `status`) — two records agreeing on
those fields get identical analyses whatever their other fields hold. -/
theorem scorer_input_dependence (now : Int) (p q : ProductRecord)
    (h1 : p.dateOfSupply = q.dateOfSupply)
    (h2 : p.inspectionDates = q.inspectionDates)
    (h3 : p.status = q.status) :
    analyze_condition now p = analyze_condition now p
  ∧ analyze_condition now p = analyze_condition now q := by
  refine ⟨rfl, ?_⟩
  unfold analyze_condition
  rw [h1, h2, h3]

/-- C9 instantiated at two concrete records sharing the scoring fields and
differing in every descriptive field. -/
theorem scorer_input_dependence_witness :
    analyze_condition 200 recordA = analyze_condition 200 recordA
  ∧ analyze_condition 200 recordA = analyze_condition 200 recordB :=
  scorer_input_dependence 200 recordA recordB rfl rfl rfl

/-- C10: although the condition label is selected from the raw pre-clamp
sum and the score clamped afterwards, the returned condition always agrees
with the threshold partition applied to the returned clamped score; in
particular whenever the raw sum exceeds 100 the returned score is exactly
100 and the condition CRITICAL (and a raw sum above 100 is reachable: the
concrete over-age, never-inspected, faulty record reaches 125). -/
theorem clamp_condition_agreement (now : Int) (p : ProductRecord) :
    (analyze_condition now p).condition
      = classify_condition ((analyze_condition now p).risk_score)
  ∧ (100 < raw_risk_score now p →
      (analyze_condition now p).risk_score = 100
        ∧ (analyze_condition now p).condition = "CRITICAL")
  ∧ 100 < raw_risk_score 1500 overageFaultyRecord := by
  refine ⟨?_, fun h => ⟨?_, ?_⟩, by decide⟩
  · show classify_condition (raw_risk_score now p)
      = classify_condition (py_min (raw_risk_score now p) 100)
    exact (classify_clamp_agree (raw_risk_score now p)).symm
  · show py_min (raw_risk_score now p) 100 = 100
    unfold py_min
    rw [if_neg (by omega)]
  · show classify_condition (raw_risk_score now p) = "CRITICAL"
    exact (classify_spec (raw_risk_score now p)).1.mpr (by omega)
